import Mathlib

/-!
# Endpoint resolution of `endpoints/endpoints.go`

A shallow embedding of the endpoint locator: the static region tables, the
twenty-one per-service queries, and the properties of their results.

Go strings are embedded as Lean `String`s (sequences of Unicode scalar values,
that is, the valid UTF-8 Go strings).  A Go result `(string, error)` is the pair
`String × Option BmxError`, with `none` for a `nil` error.
`fmt.Sprintf` with the verb `%s` is string substitution and is written as
concatenation; the verb `%q` is `strconvQuote`.
-/

namespace endpoints

/-! ## Collaborators outside `endpoints.go` -/

/-- The process environment: the value of each variable that is set. -/
abbrev Env := String → Option String

/-- The value `os.Getenv` reads: the variable's value, or the empty string when it is unset. -/
def Getenv (env : Env) (key : String) : String :=
  (env key).getD ""

/-- Modelled from the spec: `helpers.EnvFallBack`, whose body is outside `endpoints.go`.
The first of the named variables holding a non-empty value gives the result; when
there is none the default is returned. -/
def EnvFallBack (env : Env) : List String → String → String
  | [], defaultValue => defaultValue
  | k :: ks, defaultValue =>
    if Getenv env k ≠ "" then Getenv env k else EnvFallBack env ks defaultValue

/-- Modelled from the spec: the error value built by `bmxerror.New`, whose body is outside
`endpoints.go`. It carries the error code and the human-readable message it was built from. -/
structure BmxError where
  code : String
  description : String
  deriving DecidableEq, Repr

/-- Modelled from the spec: `bmxerror.New(code, description)`. -/
def bmxerrorNew (code description : String) : BmxError :=
  ⟨code, description⟩

/-! ## The verb `%q` (Go's `strconv.Quote`) -/

/-- The table `lowerhex` of `strconv`. -/
def lowerhex (n : Nat) : Char :=
  "0123456789abcdef".data.getD (n % 16) '0'

/-- The digits written by `strconv` for `\x`, `\u` and `\U`: `count` hexadecimal digits of
`r`, most significant first. -/
def hexDigits (r : Nat) : Nat → List Char
  | 0 => []
  | count + 1 => lowerhex (r / 16 ^ count) :: hexDigits r count

/-- Go's `strconv.IsPrint`. Runes up to U+00FF are classified by the code of `IsPrint`
itself; above that `IsPrint` consults the Unicode tables of the Go library, which are taken
as the parameter `wide`. -/
def IsPrint (wide : Char → Bool) (r : Char) : Bool :=
  if r.toNat ≤ 0xFF then
    if 0x20 ≤ r.toNat ∧ r.toNat ≤ 0x7E then true
    else if 0xA1 ≤ r.toNat ∧ r.toNat ≤ 0xFF then r.toNat ≠ 0xAD
    else false
  else wide r

/-- Go's `appendEscapedRune` for the double quote, neither ASCII-only nor graphic-only:
the characters written for one rune. A Lean `Char` is always a valid rune, so the branch
for invalid runes does not arise. -/
def escapedRune (wide : Char → Bool) (r : Char) : List Char :=
  if r = Char.ofNat 34 ∨ r = Char.ofNat 92 then [Char.ofNat 92, r]
  else if IsPrint wide r then [r]
  else if r.toNat = 7 then [Char.ofNat 92, 'a']
  else if r.toNat = 8 then [Char.ofNat 92, 'b']
  else if r.toNat = 12 then [Char.ofNat 92, 'f']
  else if r.toNat = 10 then [Char.ofNat 92, 'n']
  else if r.toNat = 13 then [Char.ofNat 92, 'r']
  else if r.toNat = 9 then [Char.ofNat 92, 't']
  else if r.toNat = 11 then [Char.ofNat 92, 'v']
  else if r.toNat < 0x20 ∨ r.toNat = 0x7F then Char.ofNat 92 :: 'x' :: hexDigits r.toNat 2
  else if r.toNat < 0x10000 then Char.ofNat 92 :: 'u' :: hexDigits r.toNat 4
  else Char.ofNat 92 :: 'U' :: hexDigits r.toNat 8

/-- Go's `strconv.Quote`, which `fmt.Sprintf` applies for the verb `%q`: the string between
double quotes, each rune escaped by `escapedRune`. -/
def strconvQuote (wide : Char → Bool) (s : String) : String :=
  ⟨Char.ofNat 34 :: (s.data.flatMap (escapedRune wide) ++ [Char.ofNat 34])⟩

/-! ## `endpoints.go` -/

/-- The constant `ErrCodeServiceEndpoint`. -/
def ErrCodeServiceEndpoint : String := "ServiceEndpointDoesnotExist"

/-- A Go `map[string]string` literal, as the list of its entries (the keys are distinct). -/
abbrev GoMap := List (String × String)

/-- The package variable `regionToEndpoint`. -/
def regionToEndpoint : List (String × GoMap) :=
  [ ("cf",
      [ ("us-south", "https://api.ng.bluemix.net"),
        ("us-east", "https://api.us-east.bluemix.net"),
        ("eu-gb", "https://api.eu-gb.bluemix.net"),
        ("au-syd", "https://api.au-syd.bluemix.net"),
        ("eu-de", "https://api.eu-de.bluemix.net"),
        ("jp-tok", "https://api.jp-tok.bluemix.net") ]),
    ("cr",
      [ ("us-south", "us.icr.io"),
        ("us-east", "us.icr.io"),
        ("eu-de", "de.icr.io"),
        ("au-syd", "au.icr.io"),
        ("eu-gb", "uk.icr.io"),
        ("jp-tok", "jp.icr.io"),
        ("jp-osa", "jp2.icr.io") ]),
    ("uaa",
      [ ("us-south", "https://iam.cloud.ibm.com/cloudfoundry/login/us-south"),
        ("us-east", "https://iam.cloud.ibm.com/cloudfoundry/login/us-east"),
        ("eu-gb", "https://iam.cloud.ibm.com/cloudfoundry/login/uk-south"),
        ("au-syd", "https://iam.cloud.ibm.com/cloudfoundry/login/ap-south"),
        ("eu-de", "https://iam.cloud.ibm.com/cloudfoundry/login/eu-central") ]) ]

/-- The package variable `privateRegions`. -/
def privateRegions : List String := ["us-south", "us-east"]

/-- The Go expression `regionToEndpoint[service][region]` in its two-result form: the outer
index yields the inner map (the empty map for a missing key) and the inner index yields
`some ep` exactly when `ok` is true. -/
def regionLookup (service region : String) : Option String :=
  ((regionToEndpoint.lookup service).getD []).lookup region

/-- The struct `endpointLocator`. -/
structure endpointLocator where
  region : String
  visibility : String
  deriving DecidableEq, Repr

/-- The constructor `NewEndpointLocator`. -/
def NewEndpointLocator (region visibility : String) : endpointLocator :=
  { region := region, visibility := visibility }

/-- The result of a query: the Go pair `(string, error)`. -/
abbrev Result := String × Option BmxError

/-- The method `AccountManagementEndpoint`. -/
def AccountManagementEndpoint (env : Env) (e : endpointLocator) : Result :=
  let endpoint := EnvFallBack env ["IBMCLOUD_ACCOUNT_MANAGEMENT_API_ENDPOINT"] ""
  if endpoint ≠ "" then (endpoint, none)
  else if e.visibility = "private" ∧ (e.region = "us-south" ∨ e.region = "us-east") then
    ("https://private." ++ e.region ++ ".accounts.cloud.ibm.com", none)
  else ("https://accounts.cloud.ibm.com", none)

/-- The method `CertificateManagerEndpoint`. -/
def CertificateManagerEndpoint (env : Env) (e : endpointLocator) : Result :=
  let endpoint := EnvFallBack env ["IBMCLOUD_CERTIFICATE_MANAGER_API_ENDPOINT"] ""
  if endpoint ≠ "" then (endpoint, none)
  else if e.visibility = "private" then
    ("https://private." ++ e.region ++ ".certificate-manager.cloud.ibm.com", none)
  else ("https://" ++ e.region ++ ".certificate-manager.cloud.ibm.com", none)

/-- The method `CFAPIEndpoint`. The table is consulted before the visibility is. -/
def CFAPIEndpoint (wide : Char → Bool) (env : Env) (e : endpointLocator) : Result :=
  let endpoint := EnvFallBack env ["IBMCLOUD_CF_API_ENDPOINT"] ""
  if endpoint ≠ "" then (endpoint, none)
  else
    match regionLookup "cf" e.region with
    | some ep => (ep, none)
    | none =>
      if e.visibility = "private" then
        ("", some (bmxerrorNew ErrCodeServiceEndpoint
          "Private Endpoints is not supported by this service"))
      else
        ("", some (bmxerrorNew ErrCodeServiceEndpoint
          ("Cloud Foundry endpoint doesn't exist for region: " ++ strconvQuote wide e.region)))

/-- The method `ContainerEndpoint`. -/
def ContainerEndpoint (env : Env) (e : endpointLocator) : Result :=
  let endpoint := EnvFallBack env ["IBMCLOUD_CS_API_ENDPOINT"] ""
  if endpoint ≠ "" then (endpoint, none)
  else if e.visibility = "private" then
    ("", some (bmxerrorNew ErrCodeServiceEndpoint
      "Private Endpoints is not supported by this service"))
  else ("https://containers.cloud.ibm.com/global", none)

/-- The method `SchematicsEndpoint`. -/
def SchematicsEndpoint (env : Env) (e : endpointLocator) : Result :=
  let endpoint := EnvFallBack env ["IBMCLOUD_SCHEMATICS_API_ENDPOINT"] ""
  if endpoint ≠ "" then (endpoint, none)
  else if e.visibility = "private" then
    if e.region = "us-south" ∨ e.region = "us-east" then
      ("https://private-us.schematics.cloud.ibm.com", none)
    else if e.region = "eu-gb" ∨ e.region = "eu-de" then
      ("https://private-eu.schematics.cloud.ibm.com", none)
    else
      ("", some (bmxerrorNew ErrCodeServiceEndpoint
        ("Private Endpoints is not supported by this service for the region " ++ e.region)))
  else ("https://" ++ e.region ++ ".schematics.cloud.ibm.com", none)

/-- The method `ContainerRegistryEndpoint`. -/
def ContainerRegistryEndpoint (wide : Char → Bool) (env : Env) (e : endpointLocator) : Result :=
  let endpoint := EnvFallBack env ["IBMCLOUD_CR_API_ENDPOINT"] ""
  if endpoint ≠ "" then (endpoint, none)
  else
    match regionLookup "cr" e.region with
    | some ep =>
      if e.visibility = "private" then ("https://private." ++ ep, none)
      else ("https://" ++ ep, none)
    | none =>
      ("", some (bmxerrorNew ErrCodeServiceEndpoint
        ("Container Registry endpoint doesn't exist for region: " ++ strconvQuote wide e.region)))

/-- The method `CisEndpoint`. -/
def CisEndpoint (env : Env) (e : endpointLocator) : Result :=
  let endpoint := EnvFallBack env ["IBMCLOUD_CIS_API_ENDPOINT"] ""
  if endpoint ≠ "" then (endpoint, none)
  else if e.visibility = "private" then ("https://api.private.cis.cloud.ibm.com", none)
  else ("https://api.cis.cloud.ibm.com", none)

/-- The method `GlobalSearchEndpoint`. -/
def GlobalSearchEndpoint (env : Env) (e : endpointLocator) : Result :=
  let endpoint := EnvFallBack env ["IBMCLOUD_GS_API_ENDPOINT"] ""
  if endpoint ≠ "" then (endpoint, none)
  else if e.visibility = "private" ∧ (e.region = "us-south" ∨ e.region = "us-east") then
    ("https://api.private." ++ e.region ++ ".global-search-tagging.cloud.ibm.com", none)
  else ("https://api.global-search-tagging.cloud.ibm.com", none)

/-- The method `GlobalTaggingEndpoint`. -/
def GlobalTaggingEndpoint (env : Env) (e : endpointLocator) : Result :=
  let endpoint := EnvFallBack env ["IBMCLOUD_GT_API_ENDPOINT"] ""
  if endpoint ≠ "" then (endpoint, none)
  else if e.visibility = "private" ∧ (e.region = "us-south" ∨ e.region = "us-east") then
    ("https://tags.private." ++ e.region ++ ".global-search-tagging.cloud.ibm.com", none)
  else ("https://tags.global-search-tagging.cloud.ibm.com", none)

/-- The method `IAMEndpoint`. -/
def IAMEndpoint (env : Env) (e : endpointLocator) : Result :=
  let endpoint := EnvFallBack env ["IBMCLOUD_IAM_API_ENDPOINT"] ""
  if endpoint ≠ "" then (endpoint, none)
  else if e.visibility = "private" then
    if e.region = "us-south" ∨ e.region = "us-east" then
      ("https://private." ++ e.region ++ ".iam.cloud.ibm.com", none)
    else ("https://private.iam.cloud.ibm.com", none)
  else ("https://iam.cloud.ibm.com", none)

/-- The method `IAMPAPEndpoint`. -/
def IAMPAPEndpoint (env : Env) (e : endpointLocator) : Result :=
  let endpoint := EnvFallBack env ["IBMCLOUD_IAMPAP_API_ENDPOINT"] ""
  if endpoint ≠ "" then (endpoint, none)
  else if e.visibility = "private" then
    if e.region = "us-south" ∨ e.region = "us-east" then
      ("https://private." ++ e.region ++ ".iam.cloud.ibm.com", none)
    else ("https://private.iam.cloud.ibm.com", none)
  else ("https://iam.cloud.ibm.com", none)

/-- The method `ICDEndpoint`. -/
def ICDEndpoint (env : Env) (e : endpointLocator) : Result :=
  let endpoint := EnvFallBack env ["IBMCLOUD_ICD_API_ENDPOINT"] ""
  if endpoint ≠ "" then (endpoint, none)
  else if e.visibility = "private" then
    ("https://api." ++ e.region ++ ".private.databases.cloud.ibm.com", none)
  else ("https://api." ++ e.region ++ ".databases.cloud.ibm.com", none)

/-- The method `MCCPAPIEndpoint`. -/
def MCCPAPIEndpoint (env : Env) (e : endpointLocator) : Result :=
  let endpoint := EnvFallBack env ["IBMCLOUD_MCCP_API_ENDPOINT"] ""
  if endpoint ≠ "" then (endpoint, none)
  else if e.visibility = "private" then
    ("", some (bmxerrorNew ErrCodeServiceEndpoint
      ("Private Endpoints is not supported by this service for the region " ++ e.region)))
  else ("https://mccp." ++ e.region ++ ".cf.cloud.ibm.com", none)

/-- The method `ResourceManagementEndpoint`. -/
def ResourceManagementEndpoint (env : Env) (e : endpointLocator) : Result :=
  let endpoint := EnvFallBack env ["IBMCLOUD_RESOURCE_MANAGEMENT_API_ENDPOINT"] ""
  if endpoint ≠ "" then (endpoint, none)
  else if e.visibility = "private" ∧ (e.region = "us-south" ∨ e.region = "us-east") then
    ("https://private." ++ e.region ++ ".resource-controller.cloud.ibm.com", none)
  else ("https://resource-controller.cloud.ibm.com", none)

/-- The method `ResourceControllerEndpoint`. -/
def ResourceControllerEndpoint (env : Env) (e : endpointLocator) : Result :=
  let endpoint := EnvFallBack env ["IBMCLOUD_RESOURCE_CONTROLLER_API_ENDPOINT"] ""
  if endpoint ≠ "" then (endpoint, none)
  else if e.visibility = "private" ∧ (e.region = "us-south" ∨ e.region = "us-east") then
    ("https://private." ++ e.region ++ ".resource-controller.cloud.ibm.com", none)
  else ("https://resource-controller.cloud.ibm.com", none)

/-- The method `ResourceCatalogEndpoint`. -/
def ResourceCatalogEndpoint (env : Env) (e : endpointLocator) : Result :=
  let endpoint := EnvFallBack env ["IBMCLOUD_RESOURCE_CATALOG_API_ENDPOINT"] ""
  if endpoint ≠ "" then (endpoint, none)
  else if e.visibility = "private" ∧ (e.region = "us-south" ∨ e.region = "us-east") then
    ("https://private." ++ e.region ++ ".globalcatalog.cloud.ibm.com", none)
  else ("https://globalcatalog.cloud.ibm.com", none)

/-- The method `UAAEndpoint`. The visibility is consulted before the table is. -/
def UAAEndpoint (wide : Char → Bool) (env : Env) (e : endpointLocator) : Result :=
  let endpoint := EnvFallBack env ["IBMCLOUD_UAA_ENDPOINT"] ""
  if endpoint ≠ "" then (endpoint, none)
  else if e.visibility = "private" then
    ("", some (bmxerrorNew ErrCodeServiceEndpoint
      ("Private Endpoints is not supported by this service for the region " ++ e.region)))
  else
    match regionLookup "uaa" e.region with
    | some ep => (ep, none)
    | none =>
      ("", some (bmxerrorNew ErrCodeServiceEndpoint
        ("UAA endpoint doesn't exist for region: " ++ strconvQuote wide e.region)))

/-- The method `CseEndpoint`. -/
def CseEndpoint (env : Env) (e : endpointLocator) : Result :=
  let endpoint := EnvFallBack env ["IBMCLOUD_CSE_ENDPOINT"] ""
  if endpoint ≠ "" then (endpoint, none)
  else if e.visibility = "private" then
    ("", some (bmxerrorNew ErrCodeServiceEndpoint
      "Private Endpoints is not supported by this service"))
  else ("https://api.serviceendpoint.cloud.ibm.com", none)

/-- The method `UserManagementEndpoint`. -/
def UserManagementEndpoint (env : Env) (e : endpointLocator) : Result :=
  let endpoint := EnvFallBack env ["IBMCLOUD_USER_MANAGEMENT_ENDPOINT"] ""
  if endpoint ≠ "" then (endpoint, none)
  else if e.visibility = "private" ∧ (e.region = "us-south" ∨ e.region = "us-east") then
    ("https://private." ++ e.region ++ ".user-management.cloud.ibm.com", none)
  else ("https://user-management.cloud.ibm.com", none)

/-- The method `HpcsEndpoint`. -/
def HpcsEndpoint (env : Env) (e : endpointLocator) : Result :=
  let endpoint := EnvFallBack env ["IBMCLOUD_HPCS_API_ENDPOINT"] ""
  if endpoint ≠ "" then (endpoint, none)
  else ("https://" ++ e.region ++ ".broker.hs-crypto.cloud.ibm.com/crypto_v2/", none)

/-- The method `FunctionsEndpoint`. -/
def FunctionsEndpoint (env : Env) (e : endpointLocator) : Result :=
  let endpoint := EnvFallBack env ["IBMCLOUD_FUNCTIONS_API_ENDPOINT"] ""
  if endpoint ≠ "" then (endpoint, none)
  else if e.visibility = "private" then
    ("", some (bmxerrorNew ErrCodeServiceEndpoint
      ("Private Endpoints is not supported by this service for the region " ++ e.region)))
  else ("https://" ++ e.region ++ ".functions.cloud.ibm.com", none)

/-! ## The interface `EndpointLocator` -/

/-- The twenty-one methods of the interface `EndpointLocator`, in its order. -/
inductive Service where
  | AccountManagement | CertificateManager | CFAPI | Container | ContainerRegistry | Cis
  | GlobalSearch | GlobalTagging | IAM | IAMPAP | ICD | MCCPAPI | ResourceManagement
  | ResourceController | ResourceCatalog | UAA | Cse | Schematics | UserManagement | Hpcs
  | Functions
  deriving DecidableEq, Repr

/-- The method of the interface `EndpointLocator` that a service names. -/
def query (wide : Char → Bool) (env : Env) (e : endpointLocator) : Service → Result
  | .AccountManagement => AccountManagementEndpoint env e
  | .CertificateManager => CertificateManagerEndpoint env e
  | .CFAPI => CFAPIEndpoint wide env e
  | .Container => ContainerEndpoint env e
  | .ContainerRegistry => ContainerRegistryEndpoint wide env e
  | .Cis => CisEndpoint env e
  | .GlobalSearch => GlobalSearchEndpoint env e
  | .GlobalTagging => GlobalTaggingEndpoint env e
  | .IAM => IAMEndpoint env e
  | .IAMPAP => IAMPAPEndpoint env e
  | .ICD => ICDEndpoint env e
  | .MCCPAPI => MCCPAPIEndpoint env e
  | .ResourceManagement => ResourceManagementEndpoint env e
  | .ResourceController => ResourceControllerEndpoint env e
  | .ResourceCatalog => ResourceCatalogEndpoint env e
  | .UAA => UAAEndpoint wide env e
  | .Cse => CseEndpoint env e
  | .Schematics => SchematicsEndpoint env e
  | .UserManagement => UserManagementEndpoint env e
  | .Hpcs => HpcsEndpoint env e
  | .Functions => FunctionsEndpoint env e

/-- The environment variable each method passes to `helpers.EnvFallBack`. -/
def overrideVariable : Service → String
  | .AccountManagement => "IBMCLOUD_ACCOUNT_MANAGEMENT_API_ENDPOINT"
  | .CertificateManager => "IBMCLOUD_CERTIFICATE_MANAGER_API_ENDPOINT"
  | .CFAPI => "IBMCLOUD_CF_API_ENDPOINT"
  | .Container => "IBMCLOUD_CS_API_ENDPOINT"
  | .ContainerRegistry => "IBMCLOUD_CR_API_ENDPOINT"
  | .Cis => "IBMCLOUD_CIS_API_ENDPOINT"
  | .GlobalSearch => "IBMCLOUD_GS_API_ENDPOINT"
  | .GlobalTagging => "IBMCLOUD_GT_API_ENDPOINT"
  | .IAM => "IBMCLOUD_IAM_API_ENDPOINT"
  | .IAMPAP => "IBMCLOUD_IAMPAP_API_ENDPOINT"
  | .ICD => "IBMCLOUD_ICD_API_ENDPOINT"
  | .MCCPAPI => "IBMCLOUD_MCCP_API_ENDPOINT"
  | .ResourceManagement => "IBMCLOUD_RESOURCE_MANAGEMENT_API_ENDPOINT"
  | .ResourceController => "IBMCLOUD_RESOURCE_CONTROLLER_API_ENDPOINT"
  | .ResourceCatalog => "IBMCLOUD_RESOURCE_CATALOG_API_ENDPOINT"
  | .UAA => "IBMCLOUD_UAA_ENDPOINT"
  | .Cse => "IBMCLOUD_CSE_ENDPOINT"
  | .Schematics => "IBMCLOUD_SCHEMATICS_API_ENDPOINT"
  | .UserManagement => "IBMCLOUD_USER_MANAGEMENT_ENDPOINT"
  | .Hpcs => "IBMCLOUD_HPCS_API_ENDPOINT"
  | .Functions => "IBMCLOUD_FUNCTIONS_API_ENDPOINT"

/-- The environment in which no variable is set. -/
def emptyEnv : Env := fun _ => none

/-- An environment in which exactly one variable is set. -/
def singleEnv (key value : String) : Env := fun k => if k = key then some value else none

/-! ## Basic facts about the collaborators -/

/-- With a single variable and the empty default, `EnvFallBack` is `Getenv`. -/
theorem EnvFallBack_single (env : Env) (k : String) :
    EnvFallBack env [k] "" = Getenv env k := by
  unfold EnvFallBack
  by_cases h : Getenv env k = ""
  · simp [h, EnvFallBack]
  · simp [h]

/-! ## String facts -/

/-- A string that starts with `a` differs from any string that `a` is not an initial segment of. -/
theorem append_ne_of_not_isPrefix (a r b c : String) (h : ¬ a.data <+: c.data) :
    a ++ r ++ b ≠ c := by
  intro e
  apply h
  rw [← e]
  simp only [String.data_append, List.append_assoc]
  exact List.prefix_append _ _

/-- A string made of `a`, `r` and `b` differs from any string shorter than `a` and `b` together. -/
theorem append_ne_of_length_lt (a r b c : String) (h : c.length < a.length + b.length) :
    a ++ r ++ b ≠ c := by
  intro e
  rw [← e] at h
  simp only [String.length_append] at h
  omega


/-- A string in which no character needs escaping is quoted by surrounding it with double
quotes. -/
theorem strconvQuote_plain (wide : Char → Bool) (s : String)
    (h : ∀ c ∈ s.data, c ≠ Char.ofNat 34 ∧ c ≠ Char.ofNat 92 ∧ IsPrint wide c = true) :
    strconvQuote wide s = "\"" ++ s ++ "\"" := by
  have key : ∀ l : List Char,
      (∀ c ∈ l, c ≠ Char.ofNat 34 ∧ c ≠ Char.ofNat 92 ∧ IsPrint wide c = true) →
      l.flatMap (escapedRune wide) = l := by
    intro l
    induction l with
    | nil => intro _; rfl
    | cons c t ih =>
      intro hl
      have hc := hl c (List.mem_cons_self c t)
      have ht := ih (fun d hd => hl d (List.mem_cons_of_mem c hd))
      simp only [List.flatMap_cons, ht]
      simp [escapedRune, hc.1, hc.2.1, hc.2.2]
  apply String.ext
  simp only [strconvQuote, String.data_append, key s.data h]
  rfl

/-! ## Properties of the queries -/

/-- Claim C1. For each of the twenty-one queries, every region, every visibility and every
environment in which the variable the query reads holds a non-empty value `v`, the query returns
`v` itself and no error. -/
theorem override_returned_verbatim (wide : Char → Bool) (env : Env) (s : Service)
    (region visibility v : String)
    (hset : env (overrideVariable s) = some v) (hne : v ≠ "") :
    query wide env (NewEndpointLocator region visibility) s = (v, none) := by
  have hget : Getenv env (overrideVariable s) = v := by simp [Getenv, hset]
  cases s <;>
    simp only [overrideVariable] at hget <;>
    simp [query, AccountManagementEndpoint, CertificateManagerEndpoint, CFAPIEndpoint,
      ContainerEndpoint, ContainerRegistryEndpoint, CisEndpoint, GlobalSearchEndpoint,
      GlobalTaggingEndpoint, IAMEndpoint, IAMPAPEndpoint, ICDEndpoint, MCCPAPIEndpoint,
      ResourceManagementEndpoint, ResourceControllerEndpoint, ResourceCatalogEndpoint,
      UAAEndpoint, CseEndpoint, SchematicsEndpoint, UserManagementEndpoint, HpcsEndpoint,
      FunctionsEndpoint, EnvFallBack_single, hget, hne]

/-- Claim C1 at the Cloud Foundry query, an unknown region and private visibility. -/
theorem override_returned_verbatim_witness :
    query (fun _ => true) (singleEnv "IBMCLOUD_CF_API_ENDPOINT" "https://cf.example.test")
        (NewEndpointLocator "mars-1" "private") Service.CFAPI
      = ("https://cf.example.test", none) :=
  override_returned_verbatim (fun _ => true)
    (singleEnv "IBMCLOUD_CF_API_ENDPOINT" "https://cf.example.test") Service.CFAPI
    "mars-1" "private" "https://cf.example.test" (by decide) (by decide)

/-- Claim C2, the code at region `eu-de` with private visibility and no variable set: the Cloud
Foundry query looks the region up in its table before it tests the visibility, and returns the
public address with no error. -/
theorem CFAPIEndpoint_private_known_region (wide : Char → Bool) :
    CFAPIEndpoint wide emptyEnv (NewEndpointLocator "eu-de" "private")
      = ("https://api.eu-de.bluemix.net", none) := by
  rfl

/-- Claim C3. With its variable unset or empty, the container registry query returns
`https://` followed by the table entry for public visibility and `https://private.` followed by
the table entry for private visibility, with no error for any visibility, when the region is in
the `cr` table; when the region is absent it returns an error for any visibility. -/
theorem ContainerRegistryEndpoint_table (wide : Char → Bool) (env : Env)
    (region visibility : String) (h : Getenv env "IBMCLOUD_CR_API_ENDPOINT" = "") :
    (∀ s, regionLookup "cr" region = some s →
      ContainerRegistryEndpoint wide env (NewEndpointLocator region "public")
          = ("https://" ++ s, none) ∧
      ContainerRegistryEndpoint wide env (NewEndpointLocator region "private")
          = ("https://private." ++ s, none) ∧
      (ContainerRegistryEndpoint wide env (NewEndpointLocator region visibility)).2 = none) ∧
    (regionLookup "cr" region = none →
      (ContainerRegistryEndpoint wide env (NewEndpointLocator region visibility)).2 ≠ none) := by
  refine ⟨fun s hs => ⟨?_, ?_, ?_⟩, fun hn => ?_⟩
  · simp [ContainerRegistryEndpoint, NewEndpointLocator, EnvFallBack_single, h, hs]
  · simp [ContainerRegistryEndpoint, NewEndpointLocator, EnvFallBack_single, h, hs]
  · by_cases hv : visibility = "private" <;>
      simp [ContainerRegistryEndpoint, NewEndpointLocator, EnvFallBack_single, h, hs, hv]
  · simp [ContainerRegistryEndpoint, NewEndpointLocator, EnvFallBack_single, h, hn]

/-- Claim C3 at regions `eu-gb` (in the table) and `mars-1` (absent). -/
theorem ContainerRegistryEndpoint_table_witness :
    (ContainerRegistryEndpoint (fun _ => true) emptyEnv (NewEndpointLocator "eu-gb" "private")
        = ("https://private.uk.icr.io", none)) ∧
    (ContainerRegistryEndpoint (fun _ => true) emptyEnv (NewEndpointLocator "mars-1" "private")).2
        ≠ none :=
  ⟨((ContainerRegistryEndpoint_table (fun _ => true) emptyEnv "eu-gb" "private" (by decide)).1
      "uk.icr.io" (by decide)).2.1,
   (ContainerRegistryEndpoint_table (fun _ => true) emptyEnv "mars-1" "private" (by decide)).2
      (by decide)⟩

/-- Claim C4. With its variable unset or empty, the UAA query returns an error for private
visibility at every region; for any other visibility it returns the table entry of a region in
the `uaa` table (for `au-syd` the `ap-south` login address) and an error for a region absent
from it (such as `unknown-region`). -/
theorem UAAEndpoint_table (wide : Char → Bool) (env : Env) (region visibility : String)
    (h : Getenv env "IBMCLOUD_UAA_ENDPOINT" = "") :
    (UAAEndpoint wide env (NewEndpointLocator region "private")).2 ≠ none ∧
    (visibility ≠ "private" →
      (∀ ep, regionLookup "uaa" region = some ep →
        UAAEndpoint wide env (NewEndpointLocator region visibility) = (ep, none)) ∧
      (regionLookup "uaa" region = none →
        (UAAEndpoint wide env (NewEndpointLocator region visibility)).2 ≠ none) ∧
      UAAEndpoint wide env (NewEndpointLocator "au-syd" visibility)
        = ("https://iam.cloud.ibm.com/cloudfoundry/login/ap-south", none) ∧
      (UAAEndpoint wide env (NewEndpointLocator "unknown-region" visibility)).2 ≠ none) := by
  refine ⟨?_, fun hv => ⟨fun ep hep => ?_, fun hn => ?_, ?_, ?_⟩⟩
  · simp [UAAEndpoint, NewEndpointLocator, EnvFallBack_single, h]
  · simp [UAAEndpoint, NewEndpointLocator, EnvFallBack_single, h, hv, hep]
  · simp [UAAEndpoint, NewEndpointLocator, EnvFallBack_single, h, hv, hn]
  · have hl : regionLookup "uaa" "au-syd"
        = some "https://iam.cloud.ibm.com/cloudfoundry/login/ap-south" := by decide
    simp [UAAEndpoint, NewEndpointLocator, EnvFallBack_single, h, hv, hl]
  · have hl : regionLookup "uaa" "unknown-region" = none := by decide
    simp [UAAEndpoint, NewEndpointLocator, EnvFallBack_single, h, hv, hl]

/-- Claim C4 at region `eu-de`, private and public. -/
theorem UAAEndpoint_table_witness :
    (UAAEndpoint (fun _ => true) emptyEnv (NewEndpointLocator "eu-de" "private")).2 ≠ none ∧
    UAAEndpoint (fun _ => true) emptyEnv (NewEndpointLocator "eu-de" "public")
      = ("https://iam.cloud.ibm.com/cloudfoundry/login/eu-central", none) :=
  ⟨(UAAEndpoint_table (fun _ => true) emptyEnv "eu-de" "public" (by decide)).1,
   ((UAAEndpoint_table (fun _ => true) emptyEnv "eu-de" "public" (by decide)).2
      (by decide)).1 _ (by decide)⟩

/-- Claim C5. With its variable unset or empty, the account management query returns the
private addresses of `us-south` and `us-east` for private visibility and the global address for
public visibility at every region; in every environment it returns no error. -/
theorem AccountManagementEndpoint_urls (env : Env) (region visibility : String) :
    (Getenv env "IBMCLOUD_ACCOUNT_MANAGEMENT_API_ENDPOINT" = "" →
      AccountManagementEndpoint env (NewEndpointLocator "us-south" "private")
        = ("https://private.us-south.accounts.cloud.ibm.com", none) ∧
      AccountManagementEndpoint env (NewEndpointLocator "us-east" "private")
        = ("https://private.us-east.accounts.cloud.ibm.com", none) ∧
      AccountManagementEndpoint env (NewEndpointLocator region "public")
        = ("https://accounts.cloud.ibm.com", none)) ∧
    (AccountManagementEndpoint env (NewEndpointLocator region visibility)).2 = none := by
  constructor
  · intro h
    refine ⟨?_, ?_, ?_⟩
    · simp [AccountManagementEndpoint, NewEndpointLocator, EnvFallBack_single, h]
    · simp [AccountManagementEndpoint, NewEndpointLocator, EnvFallBack_single, h]
    · simp [AccountManagementEndpoint, NewEndpointLocator, EnvFallBack_single, h]
  · unfold AccountManagementEndpoint
    simp only
    split_ifs <;> rfl

/-- Claim C5 at region `us-south` with private visibility. -/
theorem AccountManagementEndpoint_urls_witness :
    AccountManagementEndpoint emptyEnv (NewEndpointLocator "us-south" "private")
      = ("https://private.us-south.accounts.cloud.ibm.com", none) :=
  ((AccountManagementEndpoint_urls emptyEnv "eu-de" "public").1 (by decide)).1

/-- Claim C6. With its variable unset or empty, each of the container service, MCCP, CSE and
functions queries returns an error exactly when the visibility is `private`, at every region,
and for any other visibility returns its address. -/
theorem private_unsupported_iff (env : Env) (region visibility : String) :
    (Getenv env "IBMCLOUD_CS_API_ENDPOINT" = "" →
      ((ContainerEndpoint env (NewEndpointLocator region visibility)).2 ≠ none
        ↔ visibility = "private") ∧
      (visibility ≠ "private" → ContainerEndpoint env (NewEndpointLocator region visibility)
        = ("https://containers.cloud.ibm.com/global", none))) ∧
    (Getenv env "IBMCLOUD_MCCP_API_ENDPOINT" = "" →
      ((MCCPAPIEndpoint env (NewEndpointLocator region visibility)).2 ≠ none
        ↔ visibility = "private") ∧
      (visibility ≠ "private" → MCCPAPIEndpoint env (NewEndpointLocator region visibility)
        = ("https://mccp." ++ region ++ ".cf.cloud.ibm.com", none))) ∧
    (Getenv env "IBMCLOUD_CSE_ENDPOINT" = "" →
      ((CseEndpoint env (NewEndpointLocator region visibility)).2 ≠ none
        ↔ visibility = "private") ∧
      (visibility ≠ "private" → CseEndpoint env (NewEndpointLocator region visibility)
        = ("https://api.serviceendpoint.cloud.ibm.com", none))) ∧
    (Getenv env "IBMCLOUD_FUNCTIONS_API_ENDPOINT" = "" →
      ((FunctionsEndpoint env (NewEndpointLocator region visibility)).2 ≠ none
        ↔ visibility = "private") ∧
      (visibility ≠ "private" → FunctionsEndpoint env (NewEndpointLocator region visibility)
        = ("https://" ++ region ++ ".functions.cloud.ibm.com", none))) := by
  refine ⟨fun h => ?_, fun h => ?_, fun h => ?_, fun h => ?_⟩ <;>
    by_cases hv : visibility = "private" <;>
    simp [ContainerEndpoint, MCCPAPIEndpoint, CseEndpoint, FunctionsEndpoint,
      NewEndpointLocator, EnvFallBack_single, h, hv]

/-- Claim C6 at the functions query (private) and the MCCP query (public). -/
theorem private_unsupported_iff_witness :
    ((FunctionsEndpoint emptyEnv (NewEndpointLocator "us-south" "private")).2 ≠ none
        ↔ "private" = "private") ∧
    (MCCPAPIEndpoint emptyEnv (NewEndpointLocator "eu-gb" "public")
        = ("https://mccp." ++ "eu-gb" ++ ".cf.cloud.ibm.com", none)) :=
  ⟨((private_unsupported_iff emptyEnv "us-south" "private").2.2.2 (by decide)).1,
   ((private_unsupported_iff emptyEnv "eu-gb" "public").2.1 (by decide)).2 (by decide)⟩

/-- Claim C7 fails as stated: the MCCP query rejects private visibility at `us-south` and at
`eu-de` with two different messages, each naming its region. -/
theorem private_message_names_region :
    MCCPAPIEndpoint emptyEnv (NewEndpointLocator "us-south" "private")
      = ("", some (bmxerrorNew ErrCodeServiceEndpoint
          "Private Endpoints is not supported by this service for the region us-south")) ∧
    MCCPAPIEndpoint emptyEnv (NewEndpointLocator "eu-de" "private")
      = ("", some (bmxerrorNew ErrCodeServiceEndpoint
          "Private Endpoints is not supported by this service for the region eu-de")) ∧
    ¬ (∀ r1 r2 : String,
        ((MCCPAPIEndpoint emptyEnv (NewEndpointLocator r1 "private")).2.map
            BmxError.description)
          = ((MCCPAPIEndpoint emptyEnv (NewEndpointLocator r2 "private")).2.map
            BmxError.description)) := by
  refine ⟨by decide, by decide, fun h => ?_⟩
  exact absurd (h "us-south" "eu-de") (by decide)

/-- Claim C7, amended. When private visibility is rejected, the message of the Cloud Foundry,
container service and CSE queries is the same fixed text at every region, and the message of the
MCCP, UAA and functions queries is a fixed text followed by the region. -/
theorem private_unsupported_message (wide : Char → Bool) (env : Env) (region : String) :
    (Getenv env "IBMCLOUD_CF_API_ENDPOINT" = "" → regionLookup "cf" region = none →
      CFAPIEndpoint wide env (NewEndpointLocator region "private")
        = ("", some (bmxerrorNew ErrCodeServiceEndpoint
            "Private Endpoints is not supported by this service"))) ∧
    (Getenv env "IBMCLOUD_CS_API_ENDPOINT" = "" →
      ContainerEndpoint env (NewEndpointLocator region "private")
        = ("", some (bmxerrorNew ErrCodeServiceEndpoint
            "Private Endpoints is not supported by this service"))) ∧
    (Getenv env "IBMCLOUD_CSE_ENDPOINT" = "" →
      CseEndpoint env (NewEndpointLocator region "private")
        = ("", some (bmxerrorNew ErrCodeServiceEndpoint
            "Private Endpoints is not supported by this service"))) ∧
    (Getenv env "IBMCLOUD_MCCP_API_ENDPOINT" = "" →
      MCCPAPIEndpoint env (NewEndpointLocator region "private")
        = ("", some (bmxerrorNew ErrCodeServiceEndpoint
            ("Private Endpoints is not supported by this service for the region " ++ region)))) ∧
    (Getenv env "IBMCLOUD_UAA_ENDPOINT" = "" →
      UAAEndpoint wide env (NewEndpointLocator region "private")
        = ("", some (bmxerrorNew ErrCodeServiceEndpoint
            ("Private Endpoints is not supported by this service for the region " ++ region)))) ∧
    (Getenv env "IBMCLOUD_FUNCTIONS_API_ENDPOINT" = "" →
      FunctionsEndpoint env (NewEndpointLocator region "private")
        = ("", some (bmxerrorNew ErrCodeServiceEndpoint
            ("Private Endpoints is not supported by this service for the region " ++ region)))) := by
  refine ⟨fun h hn => ?_, fun h => ?_, fun h => ?_, fun h => ?_, fun h => ?_, fun h => ?_⟩
  · simp [CFAPIEndpoint, NewEndpointLocator, EnvFallBack_single, h, hn]
  · simp [ContainerEndpoint, NewEndpointLocator, EnvFallBack_single, h]
  · simp [CseEndpoint, NewEndpointLocator, EnvFallBack_single, h]
  · simp [MCCPAPIEndpoint, NewEndpointLocator, EnvFallBack_single, h]
  · simp [UAAEndpoint, NewEndpointLocator, EnvFallBack_single, h]
  · simp [FunctionsEndpoint, NewEndpointLocator, EnvFallBack_single, h]

/-- Claim C7, amended, at the Cloud Foundry query (region absent from its table) and the UAA
query. -/
theorem private_unsupported_message_witness :
    CFAPIEndpoint (fun _ => true) emptyEnv (NewEndpointLocator "mars-1" "private")
        = ("", some (bmxerrorNew ErrCodeServiceEndpoint
            "Private Endpoints is not supported by this service")) ∧
    UAAEndpoint (fun _ => true) emptyEnv (NewEndpointLocator "eu-de" "private")
        = ("", some (bmxerrorNew ErrCodeServiceEndpoint
            ("Private Endpoints is not supported by this service for the region " ++ "eu-de"))) :=
  ⟨(private_unsupported_message (fun _ => true) emptyEnv "mars-1").1 (by decide) (by decide),
   (private_unsupported_message (fun _ => true) emptyEnv "eu-de").2.2.2.2.1 (by decide)⟩

/-- Claim C8 fails as stated: for the region made of `eu`, a double quote and `de`, absent from
the `uaa` table, the message holds the quoted form, in which the double quote is escaped, and the
region is not a substring of it. -/
theorem quoted_region_hides_region :
    regionLookup "uaa" "eu\"de" = none ∧
    UAAEndpoint (fun _ => true) emptyEnv (NewEndpointLocator "eu\"de" "public")
      = ("", some (bmxerrorNew ErrCodeServiceEndpoint
          "UAA endpoint doesn't exist for region: \"eu\\\"de\"")) ∧
    ¬ ("eu\"de".data <:+: "UAA endpoint doesn't exist for region: \"eu\\\"de\"".data) := by
  refine ⟨by decide, by decide, by decide⟩

/-- Claim C8, amended. When no address is known for the region, the message of the Cloud
Foundry, container registry and UAA queries ends with the region as `%q` writes it; the region
itself is a substring of such a message whenever each of its characters is printable and is
neither a double quote nor a backslash. -/
theorem region_error_message (wide : Char → Bool) (env : Env) (region visibility : String) :
    (Getenv env "IBMCLOUD_CF_API_ENDPOINT" = "" → regionLookup "cf" region = none →
      visibility ≠ "private" →
      CFAPIEndpoint wide env (NewEndpointLocator region visibility)
        = ("", some (bmxerrorNew ErrCodeServiceEndpoint
            ("Cloud Foundry endpoint doesn't exist for region: " ++ strconvQuote wide region)))) ∧
    (Getenv env "IBMCLOUD_CR_API_ENDPOINT" = "" → regionLookup "cr" region = none →
      ContainerRegistryEndpoint wide env (NewEndpointLocator region visibility)
        = ("", some (bmxerrorNew ErrCodeServiceEndpoint
            ("Container Registry endpoint doesn't exist for region: "
              ++ strconvQuote wide region)))) ∧
    (Getenv env "IBMCLOUD_UAA_ENDPOINT" = "" → regionLookup "uaa" region = none →
      visibility ≠ "private" →
      UAAEndpoint wide env (NewEndpointLocator region visibility)
        = ("", some (bmxerrorNew ErrCodeServiceEndpoint
            ("UAA endpoint doesn't exist for region: " ++ strconvQuote wide region)))) ∧
    ((∀ c ∈ region.data, c ≠ Char.ofNat 34 ∧ c ≠ Char.ofNat 92 ∧ IsPrint wide c = true) →
      ∀ lead : String, region.data <:+: (lead ++ strconvQuote wide region).data) := by
  refine ⟨fun h hn hv => ?_, fun h hn => ?_, fun h hn hv => ?_, fun hp lead => ?_⟩
  · simp [CFAPIEndpoint, NewEndpointLocator, EnvFallBack_single, h, hn, hv]
  · simp [ContainerRegistryEndpoint, NewEndpointLocator, EnvFallBack_single, h, hn]
  · simp [UAAEndpoint, NewEndpointLocator, EnvFallBack_single, h, hn, hv]
  · rw [strconvQuote_plain wide region hp]
    refine ⟨(lead ++ "\"").data, "\"".data, ?_⟩
    simp [String.data_append]

/-- Claim C8, amended, at the UAA query and region `unknown-region`. -/
theorem region_error_message_witness :
    UAAEndpoint (fun _ => true) emptyEnv (NewEndpointLocator "unknown-region" "public")
        = ("", some (bmxerrorNew ErrCodeServiceEndpoint
            ("UAA endpoint doesn't exist for region: "
              ++ strconvQuote (fun _ => true) "unknown-region"))) ∧
    "unknown-region".data <:+: ("UAA endpoint doesn't exist for region: "
        ++ strconvQuote (fun _ => true) "unknown-region").data :=
  ⟨(region_error_message (fun _ => true) emptyEnv "unknown-region" "public").2.2.1
      (by decide) (by decide) (by decide),
   (region_error_message (fun _ => true) emptyEnv "unknown-region" "public").2.2.2
      (by decide) _⟩

/-- Claim C9. The HPCS query gives the same result for any two visibilities, at every region
and in every environment; with its variable unset or empty the result is the broker address of
the region; it never returns an error. -/
theorem HpcsEndpoint_ignores_visibility (env : Env) (region v1 v2 : String) :
    HpcsEndpoint env (NewEndpointLocator region v1)
      = HpcsEndpoint env (NewEndpointLocator region v2) ∧
    (Getenv env "IBMCLOUD_HPCS_API_ENDPOINT" = "" →
      HpcsEndpoint env (NewEndpointLocator region v1)
        = ("https://" ++ region ++ ".broker.hs-crypto.cloud.ibm.com/crypto_v2/", none)) ∧
    (HpcsEndpoint env (NewEndpointLocator region v1)).2 = none := by
  refine ⟨rfl, fun h => ?_, ?_⟩
  · simp [HpcsEndpoint, NewEndpointLocator, EnvFallBack_single, h]
  · unfold HpcsEndpoint
    simp only
    split_ifs <;> rfl

/-- Claim C9 at region `eu-de` with private visibility. -/
theorem HpcsEndpoint_ignores_visibility_witness :
    HpcsEndpoint emptyEnv (NewEndpointLocator "eu-de" "private")
      = ("https://" ++ "eu-de" ++ ".broker.hs-crypto.cloud.ibm.com/crypto_v2/", none) :=
  (HpcsEndpoint_ignores_visibility emptyEnv "eu-de" "private" "public").2.1 (by decide)

/-- Claim C10. With its variable unset or empty, each of the nine restricted-region queries
returns its private address of the region exactly when the visibility is `private` and the
region is `us-south` or `us-east`; in every other case it returns an address that does
not depend on the region, and no error. -/
theorem restricted_region_private (env : Env) (region visibility : String) :
    (Getenv env "IBMCLOUD_ACCOUNT_MANAGEMENT_API_ENDPOINT" = "" →
      (AccountManagementEndpoint env (NewEndpointLocator region visibility)
          = ("https://private." ++ region ++ ".accounts.cloud.ibm.com", none)
        ↔ visibility = "private" ∧ (region = "us-south" ∨ region = "us-east")) ∧
      (¬ (visibility = "private" ∧ (region = "us-south" ∨ region = "us-east")) →
        AccountManagementEndpoint env (NewEndpointLocator region visibility)
          = ("https://accounts.cloud.ibm.com", none))) ∧
    (Getenv env "IBMCLOUD_GS_API_ENDPOINT" = "" →
      (GlobalSearchEndpoint env (NewEndpointLocator region visibility)
          = ("https://api.private." ++ region ++ ".global-search-tagging.cloud.ibm.com", none)
        ↔ visibility = "private" ∧ (region = "us-south" ∨ region = "us-east")) ∧
      (¬ (visibility = "private" ∧ (region = "us-south" ∨ region = "us-east")) →
        GlobalSearchEndpoint env (NewEndpointLocator region visibility)
          = ("https://api.global-search-tagging.cloud.ibm.com", none))) ∧
    (Getenv env "IBMCLOUD_GT_API_ENDPOINT" = "" →
      (GlobalTaggingEndpoint env (NewEndpointLocator region visibility)
          = ("https://tags.private." ++ region ++ ".global-search-tagging.cloud.ibm.com", none)
        ↔ visibility = "private" ∧ (region = "us-south" ∨ region = "us-east")) ∧
      (¬ (visibility = "private" ∧ (region = "us-south" ∨ region = "us-east")) →
        GlobalTaggingEndpoint env (NewEndpointLocator region visibility)
          = ("https://tags.global-search-tagging.cloud.ibm.com", none))) ∧
    (Getenv env "IBMCLOUD_IAM_API_ENDPOINT" = "" →
      (IAMEndpoint env (NewEndpointLocator region visibility)
          = ("https://private." ++ region ++ ".iam.cloud.ibm.com", none)
        ↔ visibility = "private" ∧ (region = "us-south" ∨ region = "us-east")) ∧
      (¬ (visibility = "private" ∧ (region = "us-south" ∨ region = "us-east")) →
        IAMEndpoint env (NewEndpointLocator region visibility)
          = (if visibility = "private" then "https://private.iam.cloud.ibm.com"
              else "https://iam.cloud.ibm.com", none))) ∧
    (Getenv env "IBMCLOUD_IAMPAP_API_ENDPOINT" = "" →
      (IAMPAPEndpoint env (NewEndpointLocator region visibility)
          = ("https://private." ++ region ++ ".iam.cloud.ibm.com", none)
        ↔ visibility = "private" ∧ (region = "us-south" ∨ region = "us-east")) ∧
      (¬ (visibility = "private" ∧ (region = "us-south" ∨ region = "us-east")) →
        IAMPAPEndpoint env (NewEndpointLocator region visibility)
          = (if visibility = "private" then "https://private.iam.cloud.ibm.com"
              else "https://iam.cloud.ibm.com", none))) ∧
    (Getenv env "IBMCLOUD_RESOURCE_MANAGEMENT_API_ENDPOINT" = "" →
      (ResourceManagementEndpoint env (NewEndpointLocator region visibility)
          = ("https://private." ++ region ++ ".resource-controller.cloud.ibm.com", none)
        ↔ visibility = "private" ∧ (region = "us-south" ∨ region = "us-east")) ∧
      (¬ (visibility = "private" ∧ (region = "us-south" ∨ region = "us-east")) →
        ResourceManagementEndpoint env (NewEndpointLocator region visibility)
          = ("https://resource-controller.cloud.ibm.com", none))) ∧
    (Getenv env "IBMCLOUD_RESOURCE_CONTROLLER_API_ENDPOINT" = "" →
      (ResourceControllerEndpoint env (NewEndpointLocator region visibility)
          = ("https://private." ++ region ++ ".resource-controller.cloud.ibm.com", none)
        ↔ visibility = "private" ∧ (region = "us-south" ∨ region = "us-east")) ∧
      (¬ (visibility = "private" ∧ (region = "us-south" ∨ region = "us-east")) →
        ResourceControllerEndpoint env (NewEndpointLocator region visibility)
          = ("https://resource-controller.cloud.ibm.com", none))) ∧
    (Getenv env "IBMCLOUD_RESOURCE_CATALOG_API_ENDPOINT" = "" →
      (ResourceCatalogEndpoint env (NewEndpointLocator region visibility)
          = ("https://private." ++ region ++ ".globalcatalog.cloud.ibm.com", none)
        ↔ visibility = "private" ∧ (region = "us-south" ∨ region = "us-east")) ∧
      (¬ (visibility = "private" ∧ (region = "us-south" ∨ region = "us-east")) →
        ResourceCatalogEndpoint env (NewEndpointLocator region visibility)
          = ("https://globalcatalog.cloud.ibm.com", none))) ∧
    (Getenv env "IBMCLOUD_USER_MANAGEMENT_ENDPOINT" = "" →
      (UserManagementEndpoint env (NewEndpointLocator region visibility)
          = ("https://private." ++ region ++ ".user-management.cloud.ibm.com", none)
        ↔ visibility = "private" ∧ (region = "us-south" ∨ region = "us-east")) ∧
      (¬ (visibility = "private" ∧ (region = "us-south" ∨ region = "us-east")) →
        UserManagementEndpoint env (NewEndpointLocator region visibility)
          = ("https://user-management.cloud.ibm.com", none))) := by
  have n1 := append_ne_of_not_isPrefix "https://private." region ".accounts.cloud.ibm.com"
    "https://accounts.cloud.ibm.com" (by decide)
  have n2 := append_ne_of_not_isPrefix "https://api.private." region
    ".global-search-tagging.cloud.ibm.com" "https://api.global-search-tagging.cloud.ibm.com"
    (by decide)
  have n3 := append_ne_of_not_isPrefix "https://tags.private." region
    ".global-search-tagging.cloud.ibm.com" "https://tags.global-search-tagging.cloud.ibm.com"
    (by decide)
  have n4 := append_ne_of_not_isPrefix "https://private." region ".iam.cloud.ibm.com"
    "https://iam.cloud.ibm.com" (by decide)
  have n5 := append_ne_of_length_lt "https://private." region ".iam.cloud.ibm.com"
    "https://private.iam.cloud.ibm.com" (by decide)
  have n6 := append_ne_of_not_isPrefix "https://private." region
    ".resource-controller.cloud.ibm.com" "https://resource-controller.cloud.ibm.com" (by decide)
  have n7 := append_ne_of_not_isPrefix "https://private." region ".globalcatalog.cloud.ibm.com"
    "https://globalcatalog.cloud.ibm.com" (by decide)
  have n8 := append_ne_of_not_isPrefix "https://private." region
    ".user-management.cloud.ibm.com" "https://user-management.cloud.ibm.com" (by decide)
  refine ⟨fun h => ?_, fun h => ?_, fun h => ?_, fun h => ?_, fun h => ?_, fun h => ?_,
    fun h => ?_, fun h => ?_, fun h => ?_⟩ <;>
    by_cases hv : visibility = "private" <;>
    by_cases hr : region = "us-south" ∨ region = "us-east" <;>
    simp [AccountManagementEndpoint, GlobalSearchEndpoint, GlobalTaggingEndpoint, IAMEndpoint,
      IAMPAPEndpoint, ResourceManagementEndpoint, ResourceControllerEndpoint,
      ResourceCatalogEndpoint, UserManagementEndpoint, NewEndpointLocator, EnvFallBack_single,
      h, hv, hr, n1.symm, n2.symm, n3.symm, n4.symm, n5.symm, n6.symm, n7.symm, n8.symm]

/-- Claim C10 at the resource catalog query (private, `us-east`) and the IAM query (private,
`eu-de`). -/
theorem restricted_region_private_witness :
    (ResourceCatalogEndpoint emptyEnv (NewEndpointLocator "us-east" "private")
        = ("https://private." ++ "us-east" ++ ".globalcatalog.cloud.ibm.com", none)
      ↔ "private" = "private" ∧ ("us-east" = "us-south" ∨ "us-east" = "us-east")) ∧
    IAMEndpoint emptyEnv (NewEndpointLocator "eu-de" "private")
      = (if "private" = "private" then "https://private.iam.cloud.ibm.com"
          else "https://iam.cloud.ibm.com", none) :=
  ⟨((restricted_region_private emptyEnv "us-east" "private").2.2.2.2.2.2.2.1 (by decide)).1,
   ((restricted_region_private emptyEnv "eu-de" "private").2.2.2.1 (by decide)).2 (by decide)⟩

/-- Claim C11. With its variable unset or empty, the schematics query returns, for private
visibility, the `private-us` address at `us-south` and `us-east`, the `private-eu` address at
`eu-gb` and `eu-de`, and an error at every other region; for any other visibility it returns
`https://` followed by the region and `.schematics.cloud.ibm.com`. -/
theorem SchematicsEndpoint_urls (env : Env) (region visibility : String)
    (h : Getenv env "IBMCLOUD_SCHEMATICS_API_ENDPOINT" = "") :
    SchematicsEndpoint env (NewEndpointLocator "us-south" "private")
      = ("https://private-us.schematics.cloud.ibm.com", none) ∧
    SchematicsEndpoint env (NewEndpointLocator "us-east" "private")
      = ("https://private-us.schematics.cloud.ibm.com", none) ∧
    SchematicsEndpoint env (NewEndpointLocator "eu-gb" "private")
      = ("https://private-eu.schematics.cloud.ibm.com", none) ∧
    SchematicsEndpoint env (NewEndpointLocator "eu-de" "private")
      = ("https://private-eu.schematics.cloud.ibm.com", none) ∧
    (region ≠ "us-south" → region ≠ "us-east" → region ≠ "eu-gb" → region ≠ "eu-de" →
      (SchematicsEndpoint env (NewEndpointLocator region "private")).2 ≠ none) ∧
    (visibility ≠ "private" →
      SchematicsEndpoint env (NewEndpointLocator region visibility)
        = ("https://" ++ region ++ ".schematics.cloud.ibm.com", none)) := by
  refine ⟨?_, ?_, ?_, ?_, fun h1 h2 h3 h4 => ?_, fun hv => ?_⟩ <;>
    simp [SchematicsEndpoint, NewEndpointLocator, EnvFallBack_single, h, *]

/-- Claim C11 at region `jp-tok`, private and public. -/
theorem SchematicsEndpoint_urls_witness :
    (SchematicsEndpoint emptyEnv (NewEndpointLocator "jp-tok" "private")).2 ≠ none ∧
    SchematicsEndpoint emptyEnv (NewEndpointLocator "jp-tok" "public")
      = ("https://" ++ "jp-tok" ++ ".schematics.cloud.ibm.com", none) :=
  ⟨(SchematicsEndpoint_urls emptyEnv "jp-tok" "public" (by decide)).2.2.2.2.1
      (by decide) (by decide) (by decide) (by decide),
   (SchematicsEndpoint_urls emptyEnv "jp-tok" "public" (by decide)).2.2.2.2.2 (by decide)⟩

/-- Claim C12 fails as stated: with no variable set and private visibility, the schematics
query returns an error at region `jp-tok`, and the container registry query returns an error at
region `eu-fr2`, which is absent from the `cr` table. -/
theorem private_variant_missing_for_region :
    SchematicsEndpoint emptyEnv (NewEndpointLocator "jp-tok" "private")
      = ("", some (bmxerrorNew ErrCodeServiceEndpoint
          "Private Endpoints is not supported by this service for the region jp-tok")) ∧
    regionLookup "cr" "eu-fr2" = none ∧
    ContainerRegistryEndpoint (fun _ => true) emptyEnv (NewEndpointLocator "eu-fr2" "private")
      = ("", some (bmxerrorNew ErrCodeServiceEndpoint
          "Container Registry endpoint doesn't exist for region: \"eu-fr2\"")) := by
  refine ⟨by decide, by decide, by decide⟩

/-- Claim C12, amended. With its variable unset or empty and private visibility, the
database query succeeds at every region, the schematics query succeeds exactly at `us-south`,
`us-east`, `eu-gb` and `eu-de`, and the container registry query succeeds exactly at the regions
of the `cr` table. -/
theorem private_variant_regions (wide : Char → Bool) (env : Env) (region : String) :
    (Getenv env "IBMCLOUD_ICD_API_ENDPOINT" = "" →
      ICDEndpoint env (NewEndpointLocator region "private")
        = ("https://api." ++ region ++ ".private.databases.cloud.ibm.com", none)) ∧
    (Getenv env "IBMCLOUD_SCHEMATICS_API_ENDPOINT" = "" →
      ((SchematicsEndpoint env (NewEndpointLocator region "private")).2 = none
        ↔ region = "us-south" ∨ region = "us-east" ∨ region = "eu-gb" ∨ region = "eu-de")) ∧
    (Getenv env "IBMCLOUD_CR_API_ENDPOINT" = "" →
      ((ContainerRegistryEndpoint wide env (NewEndpointLocator region "private")).2 = none
        ↔ ∃ s, regionLookup "cr" region = some s)) := by
  refine ⟨fun h => ?_, fun h => ?_, fun h => ?_⟩
  · simp [ICDEndpoint, NewEndpointLocator, EnvFallBack_single, h]
  · by_cases h1 : region = "us-south" ∨ region = "us-east" <;>
      by_cases h2 : region = "eu-gb" ∨ region = "eu-de" <;>
      simp [SchematicsEndpoint, NewEndpointLocator, EnvFallBack_single, h, h1, h2]
  · cases hl : regionLookup "cr" region <;>
      simp [ContainerRegistryEndpoint, NewEndpointLocator, EnvFallBack_single, h, hl]

/-- Claim C12, amended, at the database query (`jp-tok`), the schematics query (`eu-gb`) and
the container registry query (`jp-osa`). -/
theorem private_variant_regions_witness :
    ICDEndpoint emptyEnv (NewEndpointLocator "jp-tok" "private")
      = ("https://api." ++ "jp-tok" ++ ".private.databases.cloud.ibm.com", none) ∧
    (SchematicsEndpoint emptyEnv (NewEndpointLocator "eu-gb" "private")).2 = none ∧
    (ContainerRegistryEndpoint (fun _ => true) emptyEnv
      (NewEndpointLocator "jp-osa" "private")).2 = none :=
  ⟨(private_variant_regions (fun _ => true) emptyEnv "jp-tok").1 (by decide),
   ((private_variant_regions (fun _ => true) emptyEnv "eu-gb").2.1 (by decide)).2 (by decide),
   ((private_variant_regions (fun _ => true) emptyEnv "jp-osa").2.2 (by decide)).2
      ⟨"jp2.icr.io", by decide⟩⟩

/-- Every query returns either no error, or the empty address together with an error whose
code is `ErrCodeServiceEndpoint`. -/
theorem query_shape (wide : Char → Bool) (env : Env) (e : endpointLocator) (s : Service) :
    (query wide env e s).2 = none ∨
      ∃ d, query wide env e s = ("", some (bmxerrorNew ErrCodeServiceEndpoint d)) := by
  cases s <;>
    simp only [query, AccountManagementEndpoint, CertificateManagerEndpoint, CFAPIEndpoint,
      ContainerEndpoint, ContainerRegistryEndpoint, CisEndpoint, GlobalSearchEndpoint,
      GlobalTaggingEndpoint, IAMEndpoint, IAMPAPEndpoint, ICDEndpoint, MCCPAPIEndpoint,
      ResourceManagementEndpoint, ResourceControllerEndpoint, ResourceCatalogEndpoint,
      UAAEndpoint, CseEndpoint, SchematicsEndpoint, UserManagementEndpoint, HpcsEndpoint,
      FunctionsEndpoint] <;>
    repeat (first
      | exact Or.inl rfl
      | exact Or.inr ⟨_, rfl⟩
      | split)

/-- Claim C13. Whenever one of the twenty-one queries returns an error, the error carries the
code `ErrCodeServiceEndpoint`, which is `ServiceEndpointDoesnotExist`, and the returned address
is the empty string. -/
theorem error_code_and_empty_url (wide : Char → Bool) (env : Env) (e : endpointLocator)
    (s : Service) (err : BmxError) (h : (query wide env e s).2 = some err) :
    err.code = ErrCodeServiceEndpoint ∧ ErrCodeServiceEndpoint = "ServiceEndpointDoesnotExist" ∧
      (query wide env e s).1 = "" := by
  rcases query_shape wide env e s with hn | ⟨d, hd⟩
  · rw [hn] at h
    exact absurd h (by simp)
  · rw [hd] at h ⊢
    simp only [Option.some.injEq] at h
    subst h
    exact ⟨rfl, rfl, rfl⟩

/-- Claim C13 at the schematics query, region `jp-tok`, private visibility. -/
theorem error_code_and_empty_url_witness :
    (bmxerrorNew ErrCodeServiceEndpoint
        "Private Endpoints is not supported by this service for the region jp-tok").code
      = ErrCodeServiceEndpoint ∧
    ErrCodeServiceEndpoint = "ServiceEndpointDoesnotExist" ∧
    (query (fun _ => true) emptyEnv (NewEndpointLocator "jp-tok" "private")
      Service.Schematics).1 = "" :=
  error_code_and_empty_url (fun _ => true) emptyEnv (NewEndpointLocator "jp-tok" "private")
    Service.Schematics _ (by decide)

/-- Claim C14. With its variable unset or empty and a visibility other than `private` (such
as `public`), the Cloud Foundry query returns the table entry of a region in the `cf` table (for
`eu-de` the address `https://api.eu-de.bluemix.net`), and for a region absent from the table it
returns the empty address with the error that no endpoint exists for the region. -/
theorem CFAPIEndpoint_public (wide : Char → Bool) (env : Env) (region visibility : String)
    (h : Getenv env "IBMCLOUD_CF_API_ENDPOINT" = "") (hv : visibility ≠ "private") :
    (∀ ep, regionLookup "cf" region = some ep →
      CFAPIEndpoint wide env (NewEndpointLocator region visibility) = (ep, none)) ∧
    CFAPIEndpoint wide env (NewEndpointLocator "eu-de" visibility)
      = ("https://api.eu-de.bluemix.net", none) ∧
    (regionLookup "cf" region = none →
      CFAPIEndpoint wide env (NewEndpointLocator region visibility)
        = ("", some (bmxerrorNew ErrCodeServiceEndpoint
            ("Cloud Foundry endpoint doesn't exist for region: "
              ++ strconvQuote wide region)))) := by
  refine ⟨fun ep hep => ?_, ?_, fun hn => ?_⟩
  · simp [CFAPIEndpoint, NewEndpointLocator, EnvFallBack_single, h, hep]
  · have hl : regionLookup "cf" "eu-de" = some "https://api.eu-de.bluemix.net" := by decide
    simp [CFAPIEndpoint, NewEndpointLocator, EnvFallBack_single, h, hl]
  · simp [CFAPIEndpoint, NewEndpointLocator, EnvFallBack_single, h, hn, hv]

/-- Claim C14 at regions `jp-tok` (in the table) and `jp-osa` (absent), public visibility. -/
theorem CFAPIEndpoint_public_witness :
    CFAPIEndpoint (fun _ => true) emptyEnv (NewEndpointLocator "jp-tok" "public")
      = ("https://api.jp-tok.bluemix.net", none) ∧
    CFAPIEndpoint (fun _ => true) emptyEnv (NewEndpointLocator "jp-osa" "public")
      = ("", some (bmxerrorNew ErrCodeServiceEndpoint
          ("Cloud Foundry endpoint doesn't exist for region: "
            ++ strconvQuote (fun _ => true) "jp-osa"))) :=
  ⟨(CFAPIEndpoint_public (fun _ => true) emptyEnv "jp-tok" "public" (by decide) (by decide)).1
      _ (by decide),
   (CFAPIEndpoint_public (fun _ => true) emptyEnv "jp-osa" "public" (by decide)
      (by decide)).2.2 (by decide)⟩

/-- Claim C15. The twenty-one variable names are pairwise distinct, and giving a new value
to (or unsetting) any variable other than the one a query reads leaves the result of that query
unchanged, for every region and visibility. -/
theorem override_variables_separate (wide : Char → Bool) (env : Env) (e : endpointLocator)
    (s : Service) (k : String) (x : Option String) (hk : k ≠ overrideVariable s) :
    Function.Injective overrideVariable ∧
      query wide (Function.update env k x) e s = query wide env e s := by
  constructor
  · intro a b hab
    cases a <;> cases b <;> first
      | rfl
      | exact absurd hab (by decide)
  · have hget : Getenv (Function.update env k x) (overrideVariable s)
        = Getenv env (overrideVariable s) := by
      simp [Getenv, Function.update, Ne.symm hk]
    cases s <;>
      simp only [overrideVariable] at hget <;>
      simp only [query, AccountManagementEndpoint, CertificateManagerEndpoint, CFAPIEndpoint,
        ContainerEndpoint, ContainerRegistryEndpoint, CisEndpoint, GlobalSearchEndpoint,
        GlobalTaggingEndpoint, IAMEndpoint, IAMPAPEndpoint, ICDEndpoint, MCCPAPIEndpoint,
        ResourceManagementEndpoint, ResourceControllerEndpoint, ResourceCatalogEndpoint,
        UAAEndpoint, CseEndpoint, SchematicsEndpoint, UserManagementEndpoint, HpcsEndpoint,
        FunctionsEndpoint, EnvFallBack_single, hget]

/-- Claim C15 at the IAM query while the variable of the IAM PAP query is set. -/
theorem override_variables_separate_witness :
    Function.Injective overrideVariable ∧
      query (fun _ => true)
          (Function.update emptyEnv "IBMCLOUD_IAMPAP_API_ENDPOINT" (some "https://pap.test"))
          (NewEndpointLocator "us-south" "private") Service.IAM
        = query (fun _ => true) emptyEnv (NewEndpointLocator "us-south" "private") Service.IAM :=
  override_variables_separate (fun _ => true) emptyEnv (NewEndpointLocator "us-south" "private")
    Service.IAM "IBMCLOUD_IAMPAP_API_ENDPOINT" (some "https://pap.test") (by decide)

/-- Claim C17. With its variable unset or empty, the database query returns
`https://api.<region>.private.databases.cloud.ibm.com` for private visibility and
`https://api.<region>.databases.cloud.ibm.com` for any other visibility, at every region; in
every environment it returns no error. -/
theorem ICDEndpoint_urls (env : Env) (region visibility : String) :
    (Getenv env "IBMCLOUD_ICD_API_ENDPOINT" = "" →
      ICDEndpoint env (NewEndpointLocator region "private")
        = ("https://api." ++ region ++ ".private.databases.cloud.ibm.com", none) ∧
      (visibility ≠ "private" →
        ICDEndpoint env (NewEndpointLocator region visibility)
          = ("https://api." ++ region ++ ".databases.cloud.ibm.com", none))) ∧
    (ICDEndpoint env (NewEndpointLocator region visibility)).2 = none := by
  refine ⟨fun h => ⟨?_, fun hv => ?_⟩, ?_⟩
  · simp [ICDEndpoint, NewEndpointLocator, EnvFallBack_single, h]
  · simp [ICDEndpoint, NewEndpointLocator, EnvFallBack_single, h, hv]
  · unfold ICDEndpoint
    simp only
    split_ifs <;> rfl

/-- Claim C17 at the region `not a region`, private and public. -/
theorem ICDEndpoint_urls_witness :
    ICDEndpoint emptyEnv (NewEndpointLocator "not a region" "private")
      = ("https://api." ++ "not a region" ++ ".private.databases.cloud.ibm.com", none) ∧
    ICDEndpoint emptyEnv (NewEndpointLocator "not a region" "public")
      = ("https://api." ++ "not a region" ++ ".databases.cloud.ibm.com", none) :=
  ⟨((ICDEndpoint_urls emptyEnv "not a region" "public").1 (by decide)).1,
   ((ICDEndpoint_urls emptyEnv "not a region" "public").1 (by decide)).2 (by decide)⟩

/-- Claim C18. For every query, region and environment, a visibility other than the exact
string `private` gives the result that the visibility `public` gives. -/
theorem visibility_exact_match (wide : Char → Bool) (env : Env) (s : Service)
    (region visibility : String) (hv : visibility ≠ "private") :
    query wide env (NewEndpointLocator region visibility) s
      = query wide env (NewEndpointLocator region "public") s := by
  have hp : "public" ≠ "private" := by decide
  cases s <;>
    simp only [query, AccountManagementEndpoint, CertificateManagerEndpoint, CFAPIEndpoint,
      ContainerEndpoint, ContainerRegistryEndpoint, CisEndpoint, GlobalSearchEndpoint,
      GlobalTaggingEndpoint, IAMEndpoint, IAMPAPEndpoint, ICDEndpoint, MCCPAPIEndpoint,
      ResourceManagementEndpoint, ResourceControllerEndpoint, ResourceCatalogEndpoint,
      UAAEndpoint, CseEndpoint, SchematicsEndpoint, UserManagementEndpoint, HpcsEndpoint,
      FunctionsEndpoint, NewEndpointLocator, hv, hp, false_and, if_false]

/-- Claim C18 at the visibilities `Private`, `internal` and the empty string, for the
functions query at region `eu-de`. -/
theorem visibility_exact_match_witness :
    query (fun _ => true) emptyEnv (NewEndpointLocator "eu-de" "Private") Service.Functions
      = query (fun _ => true) emptyEnv (NewEndpointLocator "eu-de" "public") Service.Functions ∧
    query (fun _ => true) emptyEnv (NewEndpointLocator "eu-de" "internal") Service.Functions
      = query (fun _ => true) emptyEnv (NewEndpointLocator "eu-de" "public") Service.Functions ∧
    query (fun _ => true) emptyEnv (NewEndpointLocator "eu-de" "") Service.Functions
      = query (fun _ => true) emptyEnv (NewEndpointLocator "eu-de" "public") Service.Functions :=
  ⟨visibility_exact_match (fun _ => true) emptyEnv Service.Functions "eu-de" "Private"
      (by decide),
   visibility_exact_match (fun _ => true) emptyEnv Service.Functions "eu-de" "internal"
      (by decide),
   visibility_exact_match (fun _ => true) emptyEnv Service.Functions "eu-de" "" (by decide)⟩
/-- A string that starts with `p` is made of `a`, `r` and `b` whenever `a` starts with `p`. -/
theorem isPrefix_append_append (p a r b : String) (h : p.data <+: a.data) :
    p.data <+: (a ++ r ++ b).data := by
  simp only [String.data_append, List.append_assoc]
  exact h.trans (List.prefix_append _ _)

/-- A string that starts with `https://` is not empty. -/
theorem ne_empty_of_https (x : String) (h : "https://".data <+: x.data) : x ≠ "" := by
  intro hx
  subst hx
  exact absurd h (by decide)

/-- Each of the thirteen queries without an error return gives no error, and gives either the
non-empty value of its variable or, when that is unset or empty, an address that starts with
`https://`. -/
theorem total_queries_shape (wide : Char → Bool) (env : Env) (e : endpointLocator)
    (s : Service)
    (hs : s ∈ [Service.AccountManagement, Service.CertificateManager, Service.Cis,
          Service.GlobalSearch, Service.GlobalTagging, Service.IAM, Service.IAMPAP, Service.ICD,
          Service.ResourceManagement, Service.ResourceController, Service.ResourceCatalog,
          Service.UserManagement, Service.Hpcs]) :
    (query wide env e s).2 = none ∧
    (Getenv env (overrideVariable s) ≠ "" →
      (query wide env e s).1 = Getenv env (overrideVariable s)) ∧
    (Getenv env (overrideVariable s) = "" → "https://".data <+: (query wide env e s).1.data) := by
  simp only [List.mem_cons, List.mem_singleton, List.not_mem_nil, or_false] at hs
  rcases hs with h | h | h | h | h | h | h | h | h | h | h | h | h <;> subst h <;>
    refine ⟨?_, fun hg => ?_, fun hg => ?_⟩ <;>
    simp only [query, AccountManagementEndpoint, CertificateManagerEndpoint, CisEndpoint,
      GlobalSearchEndpoint, GlobalTaggingEndpoint, IAMEndpoint, IAMPAPEndpoint, ICDEndpoint,
      ResourceManagementEndpoint, ResourceControllerEndpoint, ResourceCatalogEndpoint,
      UserManagementEndpoint, HpcsEndpoint, EnvFallBack_single, overrideVariable] at * <;>
    repeat (first
      | rfl
      | decide
      | exact isPrefix_append_append _ _ _ _ (by decide)
      | contradiction
      | split)

/-- Claim C19. The thirteen queries for account management, certificate manager, CIS, global
search, global tagging, IAM, IAM PAP, the database service, resource management, resource
controller, resource catalog, user management and HPCS return, for any region, visibility and
environment, no error and a non-empty address: the value of their variable when it is set and
not empty, and otherwise an address that starts with `https://`. A query that returns an error
is one of the eight for Cloud Foundry, container service, schematics, container registry, MCCP,
UAA, CSE and functions, and each of those eight does return an error at private visibility and
region `mars-1` when no variable is set. -/
theorem total_success_queries (wide : Char → Bool) (env : Env) (e : endpointLocator)
    (s : Service) :
    (s ∈ [Service.AccountManagement, Service.CertificateManager, Service.Cis,
          Service.GlobalSearch, Service.GlobalTagging, Service.IAM, Service.IAMPAP, Service.ICD,
          Service.ResourceManagement, Service.ResourceController, Service.ResourceCatalog,
          Service.UserManagement, Service.Hpcs] →
      (query wide env e s).2 = none ∧ (query wide env e s).1 ≠ "" ∧
      (Getenv env (overrideVariable s) ≠ "" →
        (query wide env e s).1 = Getenv env (overrideVariable s)) ∧
      (Getenv env (overrideVariable s) = "" →
        "https://".data <+: (query wide env e s).1.data)) ∧
    ((query wide env e s).2 ≠ none →
      s ∈ [Service.CFAPI, Service.Container, Service.Schematics, Service.ContainerRegistry,
           Service.MCCPAPI, Service.UAA, Service.Cse, Service.Functions]) ∧
    (s ∈ [Service.CFAPI, Service.Container, Service.Schematics, Service.ContainerRegistry,
          Service.MCCPAPI, Service.UAA, Service.Cse, Service.Functions] →
      (query wide emptyEnv (NewEndpointLocator "mars-1" "private") s).2 ≠ none) := by
  refine ⟨fun hs => ?_, fun herr => ?_, fun hs => ?_⟩
  · obtain ⟨h1, h2, h3⟩ := total_queries_shape wide env e s hs
    refine ⟨h1, ?_, h2, h3⟩
    by_cases hg : Getenv env (overrideVariable s) = ""
    · exact ne_empty_of_https _ (h3 hg)
    · rw [h2 hg]
      exact hg
  · cases s <;> first
      | decide
      | exact absurd (total_queries_shape wide env e _ (by decide)).1 herr
  · simp only [List.mem_cons, List.mem_singleton, List.not_mem_nil, or_false] at hs
    rcases hs with h | h | h | h | h | h | h | h <;> subst h <;>
      simp [query, CFAPIEndpoint, ContainerEndpoint, SchematicsEndpoint,
        ContainerRegistryEndpoint, MCCPAPIEndpoint, UAAEndpoint, CseEndpoint, FunctionsEndpoint,
        NewEndpointLocator, EnvFallBack_single, Getenv, emptyEnv,
        (by decide : regionLookup "cf" "mars-1" = none),
        (by decide : regionLookup "cr" "mars-1" = none)]

/-- Claim C19 at the CIS query (its variable set: that value, no error), the certificate
manager query (no variable set: a non-empty address, no error) and the container registry query
(an error). -/
theorem total_success_queries_witness :
    ((query (fun _ => true) (singleEnv "IBMCLOUD_CIS_API_ENDPOINT" "https://cis.test")
        (NewEndpointLocator "mars-1" "private") Service.Cis).2 = none ∧
      (query (fun _ => true) (singleEnv "IBMCLOUD_CIS_API_ENDPOINT" "https://cis.test")
        (NewEndpointLocator "mars-1" "private") Service.Cis).1 ≠ "") ∧
    "https://".data <+: (query (fun _ => true) emptyEnv (NewEndpointLocator "mars-1" "private")
      Service.CertificateManager).1.data ∧
    (query (fun _ => true) emptyEnv (NewEndpointLocator "mars-1" "private")
      Service.ContainerRegistry).2 ≠ none :=
  ⟨⟨((total_success_queries (fun _ => true)
        (singleEnv "IBMCLOUD_CIS_API_ENDPOINT" "https://cis.test")
        (NewEndpointLocator "mars-1" "private") Service.Cis).1 (by decide)).1,
     ((total_success_queries (fun _ => true)
        (singleEnv "IBMCLOUD_CIS_API_ENDPOINT" "https://cis.test")
        (NewEndpointLocator "mars-1" "private") Service.Cis).1 (by decide)).2.1⟩,
   ((total_success_queries (fun _ => true) emptyEnv (NewEndpointLocator "mars-1" "private")
      Service.CertificateManager).1 (by decide)).2.2.2 (by decide),
   (total_success_queries (fun _ => true) emptyEnv (NewEndpointLocator "mars-1" "private")
      Service.ContainerRegistry).2.2 (by decide)⟩

/-- Claim C20. The IAM and IAM PAP queries return the same result whenever their two
variables hold the same value, in particular when neither is set, and so do the resource
management and resource controller queries, for every region and visibility. -/
theorem paired_queries_agree (env : Env) (e : endpointLocator) :
    (Getenv env "IBMCLOUD_IAM_API_ENDPOINT" = Getenv env "IBMCLOUD_IAMPAP_API_ENDPOINT" →
      IAMEndpoint env e = IAMPAPEndpoint env e) ∧
    (Getenv env "IBMCLOUD_IAM_API_ENDPOINT" = "" →
      Getenv env "IBMCLOUD_IAMPAP_API_ENDPOINT" = "" →
      IAMEndpoint env e = IAMPAPEndpoint env e) ∧
    (Getenv env "IBMCLOUD_RESOURCE_MANAGEMENT_API_ENDPOINT"
        = Getenv env "IBMCLOUD_RESOURCE_CONTROLLER_API_ENDPOINT" →
      ResourceManagementEndpoint env e = ResourceControllerEndpoint env e) ∧
    (Getenv env "IBMCLOUD_RESOURCE_MANAGEMENT_API_ENDPOINT" = "" →
      Getenv env "IBMCLOUD_RESOURCE_CONTROLLER_API_ENDPOINT" = "" →
      ResourceManagementEndpoint env e = ResourceControllerEndpoint env e) := by
  refine ⟨fun h => ?_, fun h1 h2 => ?_, fun h => ?_, fun h1 h2 => ?_⟩
  · simp only [IAMEndpoint, IAMPAPEndpoint, EnvFallBack_single, h]
  · simp only [IAMEndpoint, IAMPAPEndpoint, EnvFallBack_single, h1, h2]
  · simp only [ResourceManagementEndpoint, ResourceControllerEndpoint, EnvFallBack_single, h]
  · simp only [ResourceManagementEndpoint, ResourceControllerEndpoint, EnvFallBack_single,
      h1, h2]

/-- Claim C20 with no variable set, at region `us-east` and private visibility. -/
theorem paired_queries_agree_witness :
    IAMEndpoint emptyEnv (NewEndpointLocator "us-east" "private")
      = IAMPAPEndpoint emptyEnv (NewEndpointLocator "us-east" "private") ∧
    ResourceManagementEndpoint emptyEnv (NewEndpointLocator "us-east" "private")
      = ResourceControllerEndpoint emptyEnv (NewEndpointLocator "us-east" "private") :=
  ⟨(paired_queries_agree emptyEnv (NewEndpointLocator "us-east" "private")).2.1
      (by decide) (by decide),
   (paired_queries_agree emptyEnv (NewEndpointLocator "us-east" "private")).2.2.1 (by decide)⟩

end endpoints
